import Mathlib

/-!
# Verification of `HocrConverter.py`

A shallow embedding of the class `HocrConverter` from `src/HocrConverter.py`
(Python 2).  The modelling conventions:

* Python 2 `/` on two `int`s is floor division (`Int.fdiv`); on anything
  involving a `float` it is true division.  A value that may be either an
  `int` or a `float` is a `PyNum`.  Python floats are modelled as exact
  rationals (every concrete value appearing in the development is exactly
  representable).
* Exceptions (`KeyError`, `ZeroDivisionError`, `AttributeError`) are
  `Except.error` with the exception name as the message.
* `print` warnings are collected in a list, in emission order.  The image
  file name interpolated into the DPI warning is dropped from the message.
* An XML element is a rose tree with tag, attribute list, optional `text`
  and `tail` strings, and a child list, exactly the fields the source reads.
-/

/-! ## Character classes and digit strings

Python 2 `re` on byte strings: `\s` is `[ \t\n\v\f\r]`, `\d` is `[0-9]`.
`str.rstrip()` with no argument strips the same whitespace set. -/

/-- Python's `\s` class (and `str.rstrip()`'s whitespace set). -/
def pyIsSpace (c : Char) : Bool :=
  c.toNat = 32 || c.toNat = 9 || c.toNat = 10 || c.toNat = 11 ||
    c.toNat = 12 || c.toNat = 13

/-- Python's `\d` class: the ASCII digits. -/
def pyIsDigit (c : Char) : Bool :=
  48 ≤ c.toNat && c.toNat ≤ 57

/-- Python `int(...)` applied to a string of ASCII digits. -/
def digitsVal (ds : List Char) : Nat :=
  ds.foldl (fun a c => 10 * a + (c.toNat - 48)) 0

/-- Python `str.rstrip()` with no argument. -/
def pyRstrip (s : List Char) : List Char :=
  (s.reverse.dropWhile pyIsSpace).reverse

/-! ## The regex `bbox((\s+\d+){4})`

`boxPattern = re.compile('bbox((\s+\d+){4})')`, used via `.search`, with
`.group(1).split()` feeding the four `int()` calls.  Because `\s` and `\d`
are disjoint character classes and nothing follows the group in the
pattern, the regex engine's greedy match at a given start position is the
deterministic run-by-run match below, and `search` tries start positions
left to right. -/

/-- Match `\s+\d+` at the head of `s`: maximal space run, then maximal
digit run, both non-empty.  Returns (spaces, digits, rest). -/
def matchPair (s : List Char) : Option (List Char × List Char × List Char) :=
  let sp := s.takeWhile pyIsSpace
  let r1 := s.dropWhile pyIsSpace
  let ds := r1.takeWhile pyIsDigit
  let r2 := r1.dropWhile pyIsDigit
  if sp = [] then none
  else if ds = [] then none
  else some (sp, ds, r2)

/-- Match the whole pattern `bbox((\s+\d+){4})` at the head of `s`,
returning the four parsed integers (`int` over each digit run, which is
what `.group(1).split()` + `int()` produce). -/
def matchBboxAt (s : List Char) : Option (Nat × Nat × Nat × Nat) :=
  match s with
  | b1 :: b2 :: b3 :: b4 :: r0 =>
    if b1 = 'b' ∧ b2 = 'b' ∧ b3 = 'o' ∧ b4 = 'x' then
      match matchPair r0 with
      | none => none
      | some (_, d1, r1) =>
        match matchPair r1 with
        | none => none
        | some (_, d2, r2) =>
          match matchPair r2 with
          | none => none
          | some (_, d3, r3) =>
            match matchPair r3 with
            | none => none
            | some (_, d4, _) =>
              some (digitsVal d1, digitsVal d2, digitsVal d3, digitsVal d4)
    else none
  | _ => none

/-- `boxPattern.search`: try each start position from the left. -/
def searchBbox : List Char → Option (Nat × Nat × Nat × Nat)
  | [] => matchBboxAt []
  | s@(_ :: rest) =>
    match matchBboxAt s with
    | some v => some v
    | none => searchBbox rest

/-- Python dict lookup on an association list (XML attributes have unique
keys, so first-match lookup is the dict). -/
def dictLookup (k : String) : List (String × String) → Option String
  | [] => none
  | (a, v) :: rest => if a = k then some v else dictLookup k rest

/-- `HocrConverter.element_coordinates`: the zero box unless the `title`
attribute is present and the regex finds a match in it. -/
def element_coordinates (attrib : List (String × String)) : Nat × Nat × Nat × Nat :=
  match dictLookup "title" attrib with
  | none => (0, 0, 0, 0)
  | some t =>
    match searchBbox t.data with
    | none => (0, 0, 0, 0)
    | some v => v

/-! ## The document tree -/

/-- An `xml.etree.ElementTree` element: the fields the source reads. -/
inductive Element where
  | mk (tag : String) (attrib : List (String × String))
       (text : Option String) (tail : Option String)
       (children : List Element)

def Element.tag : Element → String
  | .mk t _ _ _ _ => t

def Element.attrib : Element → List (String × String)
  | .mk _ a _ _ _ => a

def Element.text : Element → Option String
  | .mk _ _ t _ _ => t

def Element.tail : Element → Option String
  | .mk _ _ _ t _ => t

def Element.children : Element → List Element
  | .mk _ _ _ _ c => c

mutual
/-- `HocrConverter._get_element_text`: own text, then each child's full
recursive text in child order, then the tail. -/
def get_element_text : Element → String
  | .mk _ _ t tl cs => t.getD "" ++ get_element_text_list cs ++ tl.getD ""

def get_element_text_list : List Element → String
  | [] => ""
  | c :: cs => get_element_text c ++ get_element_text_list cs
end

mutual
/-- All strict descendants of an element in document (preorder) order. -/
def descendants : Element → List Element
  | .mk _ _ _ _ cs => descendantsList cs

def descendantsList : List Element → List Element
  | [] => []
  | c :: cs => c :: descendants c ++ descendantsList cs
end

/-- `ElementTree.findall(".//" + tag)`: the strict descendants of the root
with the given (namespace-qualified) tag, in document order. -/
def findall (root : Element) (tag : String) : List Element :=
  (descendants root).filter (fun e => e.tag == tag)

/-- The state after `parse_hocr`: the inferred namespace and the tree. -/
structure Hocr where
  xmlns : String
  root : Element

/-- `HocrConverter.__str__`.  `find(".//body")` is the first matching
descendant; the truthiness test `if body:` on an `ElementTree` element is
`len(children) != 0`, so a found but childless `body` falls through to the
`else` branch and yields the empty string. -/
def hocrStr : Option Hocr → String
  | none => ""
  | some h =>
    match (findall h.root (h.xmlns ++ "body")).head? with
    | none => ""
    | some body => if body.children.isEmpty then "" else get_element_text body

/-! ## Python 2 numbers -/

/-- A Python 2 number that is either an `int` or a `float`. -/
inductive PyNum where
  | int (n : Int)
  | float (q : ℚ)
deriving DecidableEq

def PyNum.toRat : PyNum → ℚ
  | .int n => (n : ℚ)
  | .float q => q

/-- Python 2 division with a divisor already known to be non-zero:
floor division on two `int`s, true division otherwise. -/
def PyNum.div : PyNum → PyNum → PyNum
  | .int a, .int b => .int (Int.fdiv a b)
  | a, b => .float (a.toRat / b.toRat)

/-- Python 2 division as actually performed at runtime: a zero divisor
(the `int` 0 or the `float` 0.0) raises `ZeroDivisionError`. -/
def PyNum.divOrRaise (a : PyNum) : PyNum → Except String PyNum
  | .int n => if n = 0 then .error "ZeroDivisionError" else .ok (a.div (.int n))
  | .float q => if q = 0 then .error "ZeroDivisionError" else .ok (a.div (.float q))

/-! ## `to_pdf`: DPI resolution (lines 95–132) -/

/-- `reportlab.lib.units.inch` = 72 points. -/
def inch : ℚ := 72

def noHocrWarning : String :=
  "Warning: No hOCR file specified. PDF will be image-only."

def noDpiWarning : String :=
  "Warning: DPI unavailable for image. Assuming 96 DPI."

/-- The page geometry `to_pdf` computes, plus the warnings it prints. -/
structure PageGeometry where
  width : PyNum
  height : PyNum
  dpiX : PyNum
  dpiY : PyNum
  warnings : List String
deriving DecidableEq

/-- Lines 101–107: `width`/`height` from the image's own DPI metadata,
or unresolved.  `float(im.size[i]) / im.info['dpi'][i]` is float division. -/
def imageWH (imW imH : Int) : Option (Int × Int) → Option (PyNum × PyNum)
  | some (dx, dy) => some (.float ((imW : ℚ) / (dx : ℚ)), .float ((imH : ℚ) / (dy : ℚ)))
  | none => none

/-- Lines 114–125, the `div` loop: scan for the first `div` whose `class`
is `ocr_page`; `div.attrib['class']` raises `KeyError` on a classless
`div`; `break` after the first `ocr_page`, so later `div`s are never
examined. -/
def findPage : List Element → Except String (Option (Nat × Nat × Nat × Nat))
  | [] => .ok none
  | d :: rest =>
    match dictLookup "class" d.attrib with
    | none => .error "KeyError: class"
    | some c =>
      if c = "ocr_page" then .ok (some (element_coordinates d.attrib))
      else findPage rest

/-- Lines 116–124, the body of the `ocr_page` branch, with
`ocrwidth = coords[2]-coords[0]` and `ocrheight = coords[3]-coords[1]`
as Python ints: `ocrwidth/300` is Python 2 integer division, as is
`ocrwidth/width` whenever `width` came from that same branch; when
`width` is a float the divisions are true division.  The two `/300`
divisions have the literal 300 as divisor and cannot raise; the two
`ocr_dpi` divisions are evaluated left to right and raise
`ZeroDivisionError` on a zero `width`/`height` (e.g. an `ocr_page`
narrower than 300 px with no image DPI, where `ocrwidth/300 = 0`).
Returns ((width, height), (dpiX, dpiY)) or the raised error. -/
def pageStep (coords : Nat × Nat × Nat × Nat) :
    Option (PyNum × PyNum) → Except String ((PyNum × PyNum) × (PyNum × PyNum))
  | none =>
    match PyNum.divOrRaise (.int ((coords.2.2.1 : Int) - (coords.1 : Int)))
        (PyNum.div (.int ((coords.2.2.1 : Int) - (coords.1 : Int))) (.int 300)) with
    | .error e => .error e
    | .ok dx =>
      match PyNum.divOrRaise (.int ((coords.2.2.2 : Int) - (coords.2.1 : Int)))
          (PyNum.div (.int ((coords.2.2.2 : Int) - (coords.2.1 : Int))) (.int 300)) with
      | .error e => .error e
      | .ok dy =>
        .ok ((PyNum.div (.int ((coords.2.2.1 : Int) - (coords.1 : Int))) (.int 300),
              PyNum.div (.int ((coords.2.2.2 : Int) - (coords.2.1 : Int))) (.int 300)),
             (dx, dy))
  | some (w, h) =>
    match PyNum.divOrRaise (.int ((coords.2.2.1 : Int) - (coords.1 : Int))) w with
    | .error e => .error e
    | .ok dx =>
      match PyNum.divOrRaise (.int ((coords.2.2.2 : Int) - (coords.2.1 : Int))) h with
      | .error e => .error e
      | .ok dy => .ok ((w, h), (dx, dy))

/-- Lines 127–132: the 96-DPI fallback when width is still unresolved. -/
def resolveAfterPage (imW imH : Int) (dpi : PyNum × PyNum) (warn0 : List String) :
    Option (PyNum × PyNum) → PageGeometry
  | some (w, h) => ⟨w, h, dpi.1, dpi.2, warn0⟩
  | none => ⟨.float ((imW : ℚ) / 96), .float ((imH : ℚ) / 96), dpi.1, dpi.2,
      warn0 ++ [noDpiWarning]⟩

/-- Lines 95–132 over the already-extracted `div` list (the Python loop
iterates exactly over `findall(".//div")`).  `ocr_dpi` defaults to
`(300, 300)`. -/
def resolveCore (imW imH : Int) (imDpi : Option (Int × Int)) :
    Option (List Element) → Except String PageGeometry
  | none =>
    .ok (resolveAfterPage imW imH (.int 300, .int 300) [noHocrWarning]
      (imageWH imW imH imDpi))
  | some divs =>
    match findPage divs with
    | .error e => .error e
    | .ok none =>
      .ok (resolveAfterPage imW imH (.int 300, .int 300) []
        (imageWH imW imH imDpi))
    | .ok (some coords) =>
      match pageStep coords (imageWH imW imH imDpi) with
      | .error e => .error e
      | .ok r => .ok (resolveAfterPage imW imH r.2 [] (some r.1))

/-- The DPI-resolution step of `to_pdf` on a parsed document. -/
def resolve (imW imH : Int) (imDpi : Option (Int × Int)) (hocr : Option Hocr) :
    Except String PageGeometry :=
  resolveCore imW imH imDpi
    (hocr.map fun h => findall h.root (h.xmlns ++ "div"))

/-! ## `to_pdf`: the text layer (lines 140–156) -/

/-- One invisible text run drawn on the page (the arguments of the
`beginText`/`setFont`/`setTextRenderMode`/`setTextOrigin`/`setHorizScale`/
`textLine` sequence).  Coordinates are in points. -/
structure TextOp where
  font : String
  size : ℚ
  renderMode : Nat
  originX : ℚ
  originY : ℚ
  horizScale : ℚ
  text : List Char
deriving DecidableEq

/-- `pdf.stringWidth(s, "Courier", size)`: every Courier glyph is 600
units in a 1000-unit em, so the natural width is `0.6 * size` per
character. -/
def stringWidthCourier (size : ℚ) (s : List Char) : ℚ :=
  (s.length : ℚ) * (600 / 1000) * size

/-- Lines 143–156 for one `ocr_line` span, at the default font
(`"Courier"`, size 8, the values `to_pdf` is called with).  The failure
order follows the source: `setTextOrigin` divides by `ocr_dpi` first,
then `line.text.rstrip()` raises `AttributeError` when `text` is `None`,
then the `setHorizScale` argument divides by the string width. -/
def renderLine (g : PageGeometry) (line : Element) : Except String TextOp :=
  let coords := element_coordinates line.attrib
  if g.dpiX.toRat = 0 ∨ g.dpiY.toRat = 0 then .error "ZeroDivisionError"
  else
    match line.text with
    | none => .error "AttributeError"
    | some t =>
      let s := pyRstrip t.data
      let w := stringWidthCourier 8 s
      if w = 0 then .error "ZeroDivisionError"
      else .ok {
        font := "Courier"
        size := 8
        renderMode := 3
        originX := ((coords.1 : ℚ) / g.dpiX.toRat) * inch
        originY := g.height.toRat * inch - ((coords.2.2.2 : ℚ) / g.dpiY.toRat) * inch
        horizScale := ((((coords.2.2.1 : ℚ) / g.dpiX.toRat) * inch -
          ((coords.1 : ℚ) / g.dpiX.toRat) * inch) / w) * 100
        text := s }

/-- Lines 141–156, the `span` loop: `line.attrib['class']` raises
`KeyError` on a classless span; every span is examined (no `break`). -/
def renderLines (g : PageGeometry) : List Element → Except String (List TextOp)
  | [] => .ok []
  | l :: rest =>
    match dictLookup "class" l.attrib with
    | none => .error "KeyError: class"
    | some c =>
      if c = "ocr_line" then
        match renderLine g l with
        | .error e => .error e
        | .ok op =>
          match renderLines g rest with
          | .error e => .error e
          | .ok ops => .ok (op :: ops)
      else renderLines g rest

/-- The observable behaviour of `HocrConverter.to_pdf` at the default
font arguments: the resolved geometry plus the invisible text runs, or
the first exception raised. -/
def to_pdf (imW imH : Int) (imDpi : Option (Int × Int)) (hocr : Option Hocr) :
    Except String (PageGeometry × List TextOp) :=
  match resolve imW imH imDpi hocr with
  | .error e => .error e
  | .ok g =>
    match hocr with
    | none => .ok (g, [])
    | some h =>
      match renderLines g (findall h.root (h.xmlns ++ "span")) with
      | .error e => .error e
      | .ok ops => .ok (g, ops)

/-! ## Lemmas: character classes and spans -/

theorem digit_not_space {c : Char} (h : pyIsDigit c = true) : pyIsSpace c = false := by
  simp only [pyIsDigit, Bool.and_eq_true, decide_eq_true_eq] at h
  simp only [pyIsSpace, Bool.or_eq_false_iff, decide_eq_false_iff_not]
  omega

theorem space_not_digit {c : Char} (h : pyIsSpace c = true) : pyIsDigit c = false := by
  simp only [pyIsSpace, Bool.or_eq_true, decide_eq_true_eq] at h
  simp only [pyIsDigit, Bool.and_eq_false_iff, decide_eq_false_iff_not]
  omega

theorem takeWhile_dropWhile_append (p : Char → Bool) :
    ∀ (a b : List Char), (∀ c ∈ a, p c = true) →
      (∀ c, b.head? = some c → p c = false) →
      (a ++ b).takeWhile p = a ∧ (a ++ b).dropWhile p = b := by
  intro a
  induction a with
  | nil =>
    intro b _ hb
    cases b with
    | nil => simp
    | cons c cs =>
      have hc : p c = false := hb c rfl
      simp [List.takeWhile_cons, List.dropWhile_cons, hc]
  | cons a as ih =>
    intro b ha hb
    have haa : p a = true := ha a (List.mem_cons_self a as)
    have := ih b (fun c hc => ha c (List.mem_cons_of_mem a hc)) hb
    simp [List.takeWhile_cons, List.dropWhile_cons, haa, this.1, this.2]

theorem mem_takeWhile_pred (p : Char → Bool) :
    ∀ (l : List Char) (c : Char), c ∈ l.takeWhile p → p c = true := by
  intro l
  induction l with
  | nil => intro c hc; simp [List.takeWhile] at hc
  | cons a as ih =>
    intro c hc
    rw [List.takeWhile_cons] at hc
    by_cases ha : p a = true
    · simp only [ha, if_true] at hc
      rcases List.mem_cons.mp hc with rfl | hc
      · exact ha
      · exact ih c hc
    · simp only [Bool.not_eq_true] at ha
      simp [ha] at hc

theorem head_dropWhile_not (p : Char → Bool) :
    ∀ (l : List Char) (c : Char), (l.dropWhile p).head? = some c → p c = false := by
  intro l
  induction l with
  | nil => intro c hc; simp [List.dropWhile] at hc
  | cons a as ih =>
    intro c hc
    rw [List.dropWhile_cons] at hc
    by_cases ha : p a = true
    · simp only [ha, if_true] at hc
      exact ih c hc
    · simp only [Bool.not_eq_true] at ha
      simp only [ha, Bool.false_eq_true, if_false, List.head?_cons,
        Option.some.injEq] at hc
      exact hc ▸ ha

/-! ## Lemmas: the regex match against its declarative reading -/

/-- A non-empty run of `\s` characters. -/
def SpaceRun (l : List Char) : Prop := l ≠ [] ∧ ∀ c ∈ l, pyIsSpace c = true

/-- A non-empty run of `\d` characters. -/
def DigitRun (l : List Char) : Prop := l ≠ [] ∧ ∀ c ∈ l, pyIsDigit c = true

/-- Declarative reading of "the string starts with a `bbox` token followed
by four whitespace-separated decimal integers whose values are `v`": the
literal `bbox`, four alternating space/digit runs, and no further digit
immediately after the fourth number (the regex is greedy, so the captured
fourth run is digit-maximal; the three inner runs are forced maximal
because the space and digit classes are disjoint). -/
def BboxTokenMatch (s : List Char) (v : Nat × Nat × Nat × Nat) : Prop :=
  ∃ s1 d1 s2 d2 s3 d3 s4 d4 rest,
    s = 'b' :: 'b' :: 'o' :: 'x' ::
      (s1 ++ d1 ++ (s2 ++ d2 ++ (s3 ++ d3 ++ (s4 ++ d4 ++ rest)))) ∧
    SpaceRun s1 ∧ DigitRun d1 ∧ SpaceRun s2 ∧ DigitRun d2 ∧
    SpaceRun s3 ∧ DigitRun d3 ∧ SpaceRun s4 ∧ DigitRun d4 ∧
    (∀ c, rest.head? = some c → pyIsDigit c = false) ∧
    v = (digitsVal d1, digitsVal d2, digitsVal d3, digitsVal d4)

theorem matchPair_eq_some {s sp ds rest : List Char}
    (h : matchPair s = some (sp, ds, rest)) :
    s = sp ++ ds ++ rest ∧ SpaceRun sp ∧ DigitRun ds ∧
      (∀ c, rest.head? = some c → pyIsDigit c = false) := by
  simp only [matchPair] at h
  split at h
  · exact absurd h (by simp)
  · split at h
    · exact absurd h (by simp)
    · rename_i hsp hds
      obtain ⟨h1, h2, h3⟩ : s.takeWhile pyIsSpace = sp ∧
          (s.dropWhile pyIsSpace).takeWhile pyIsDigit = ds ∧
          (s.dropWhile pyIsSpace).dropWhile pyIsDigit = rest := by
        simpa using h
      refine ⟨?_, ?_, ?_, ?_⟩
      · rw [← h1, ← h2, ← h3, List.append_assoc, List.takeWhile_append_dropWhile,
          List.takeWhile_append_dropWhile]
      · exact ⟨h1 ▸ hsp, fun c hc => mem_takeWhile_pred pyIsSpace s c (h1 ▸ hc)⟩
      · exact ⟨h2 ▸ hds, fun c hc =>
          mem_takeWhile_pred pyIsDigit (s.dropWhile pyIsSpace) c (h2 ▸ hc)⟩
      · intro c hc
        exact head_dropWhile_not pyIsDigit (s.dropWhile pyIsSpace) c (h3 ▸ hc)

theorem matchPair_of {sp ds rest : List Char} (hsp : SpaceRun sp) (hds : DigitRun ds)
    (hrest : ∀ c, rest.head? = some c → pyIsDigit c = false) :
    matchPair (sp ++ ds ++ rest) = some (sp, ds, rest) := by
  obtain ⟨hsp1, hsp2⟩ := hsp
  obtain ⟨hds1, hds2⟩ := hds
  have hdsrest : ∀ c, (ds ++ rest).head? = some c → pyIsSpace c = false := by
    intro c hc
    obtain ⟨d, ds', rfl⟩ := List.exists_cons_of_ne_nil hds1
    simp only [List.cons_append, List.head?_cons, Option.some.injEq] at hc
    exact hc ▸ digit_not_space (hds2 d (List.mem_cons_self d ds'))
  have h1 := takeWhile_dropWhile_append pyIsSpace sp (ds ++ rest) hsp2 hdsrest
  have h2 := takeWhile_dropWhile_append pyIsDigit ds rest hds2
    (fun c hc => by simpa using hrest c hc)
  simp only [matchPair, List.append_assoc, h1.1, h1.2, h2.1, h2.2, hsp1, hds1,
    if_false]

theorem matchBboxAt_of_BboxTokenMatch {s : List Char} {v : Nat × Nat × Nat × Nat}
    (h : BboxTokenMatch s v) : matchBboxAt s = some v := by
  obtain ⟨s1, d1, s2, d2, s3, d3, s4, d4, rest, rfl, hs1, hd1, hs2, hd2, hs3, hd3,
    hs4, hd4, hrest, rfl⟩ := h
  have head_space : ∀ (sp tl : List Char), SpaceRun sp →
      ∀ c, (sp ++ tl).head? = some c → pyIsDigit c = false := by
    intro sp tl hsp c hc
    obtain ⟨a, sp', rfl⟩ := List.exists_cons_of_ne_nil hsp.1
    simp only [List.cons_append, List.head?_cons, Option.some.injEq] at hc
    exact hc ▸ space_not_digit (hsp.2 a (List.mem_cons_self a sp'))
  have h1 := matchPair_of hs1 hd1
    (head_space s2 (d2 ++ (s3 ++ d3 ++ (s4 ++ d4 ++ rest))) hs2)
  have h2 := matchPair_of hs2 hd2
    (head_space s3 (d3 ++ (s4 ++ d4 ++ rest)) hs3)
  have h3 := matchPair_of hs3 hd3 (head_space s4 (d4 ++ rest) hs4)
  have h4 := matchPair_of hs4 hd4 hrest
  simp only [List.append_assoc] at h1 h2 h3 h4
  simp [matchBboxAt, h1, h2, h3, h4]

theorem BboxTokenMatch_of_matchBboxAt {s : List Char} {v : Nat × Nat × Nat × Nat}
    (h : matchBboxAt s = some v) : BboxTokenMatch s v := by
  match s with
  | [] => simp [matchBboxAt] at h
  | [b1] => simp [matchBboxAt] at h
  | [b1, b2] => simp [matchBboxAt] at h
  | [b1, b2, b3] => simp [matchBboxAt] at h
  | b1 :: b2 :: b3 :: b4 :: r0 =>
    simp only [matchBboxAt] at h
    by_cases hb : b1 = 'b' ∧ b2 = 'b' ∧ b3 = 'o' ∧ b4 = 'x'
    case neg => rw [if_neg hb] at h; exact absurd h (by simp)
    case pos =>
      rw [if_pos hb] at h
      obtain ⟨rfl, rfl, rfl, rfl⟩ := hb
      cases hp1 : matchPair r0 with
      | none => rw [hp1] at h; simp at h
      | some x1 =>
        obtain ⟨s1, d1, r1⟩ := x1
        rw [hp1] at h
        simp only at h
        cases hp2 : matchPair r1 with
        | none => rw [hp2] at h; simp at h
        | some x2 =>
          obtain ⟨s2, d2, r2⟩ := x2
          rw [hp2] at h
          simp only at h
          cases hp3 : matchPair r2 with
          | none => rw [hp3] at h; simp at h
          | some x3 =>
            obtain ⟨s3, d3, r3⟩ := x3
            rw [hp3] at h
            simp only at h
            cases hp4 : matchPair r3 with
            | none => rw [hp4] at h; simp at h
            | some x4 =>
              obtain ⟨s4, d4, r4⟩ := x4
              rw [hp4] at h
              simp only [Option.some.injEq] at h
              obtain ⟨e1, q1, q2, hr1⟩ := matchPair_eq_some hp1
              obtain ⟨e2, q3, q4, hr2⟩ := matchPair_eq_some hp2
              obtain ⟨e3, q5, q6, hr3⟩ := matchPair_eq_some hp3
              obtain ⟨e4, q7, q8, hr4⟩ := matchPair_eq_some hp4
              refine ⟨s1, d1, s2, d2, s3, d3, s4, d4, r4, ?_, q1, q2, q3, q4,
                q5, q6, q7, q8, hr4, h.symm⟩
              rw [e1, e2, e3, e4]

theorem searchBbox_cons_some {c : Char} {cs : List Char} {v : Nat × Nat × Nat × Nat}
    (h : matchBboxAt (c :: cs) = some v) : searchBbox (c :: cs) = some v := by
  rw [searchBbox, h]

theorem searchBbox_cons_none {c : Char} {cs : List Char}
    (h : matchBboxAt (c :: cs) = none) : searchBbox (c :: cs) = searchBbox cs := by
  rw [searchBbox, h]

theorem searchBbox_of_matchBboxAt {v : Nat × Nat × Nat × Nat} :
    ∀ (n : Nat) (s : List Char), matchBboxAt (s.drop n) = some v →
      (∀ m, m < n → matchBboxAt (s.drop m) = none) →
      searchBbox s = some v := by
  intro n
  induction n with
  | zero =>
    intro s hn _
    rw [List.drop_zero] at hn
    cases s with
    | nil => rw [searchBbox]; exact hn
    | cons c cs => exact searchBbox_cons_some hn
  | succ n ih =>
    intro s hn hbefore
    have h0 : matchBboxAt s = none := by
      have := hbefore 0 (Nat.succ_pos n)
      rwa [List.drop_zero] at this
    cases s with
    | nil => rw [List.drop_nil] at hn; simp [matchBboxAt] at hn
    | cons c cs =>
      rw [searchBbox_cons_none h0]
      exact ih cs (by rwa [List.drop_succ_cons] at hn)
        (fun m hm => by
          have := hbefore (m + 1) (Nat.succ_lt_succ hm)
          rwa [List.drop_succ_cons] at this)

theorem searchBbox_eq_none :
    ∀ (s : List Char), (∀ n, matchBboxAt (s.drop n) = none) → searchBbox s = none := by
  intro s
  induction s with
  | nil =>
    intro h
    have h0 := h 0
    rw [List.drop_zero] at h0
    rw [searchBbox]
    exact h0
  | cons c cs ih =>
    intro h
    have h0 : matchBboxAt (c :: cs) = none := by
      have := h 0; rwa [List.drop_zero] at this
    rw [searchBbox_cons_none h0]
    exact ih (fun n => by have := h (n + 1); rwa [List.drop_succ_cons] at this)

theorem no_match_of_searchBbox_none :
    ∀ (s : List Char), searchBbox s = none →
      ∀ n v, ¬ BboxTokenMatch (s.drop n) v := by
  intro s
  induction s with
  | nil =>
    intro _ n v hb
    rw [List.drop_nil] at hb
    obtain ⟨_, _, _, _, _, _, _, _, _, heq, _⟩ := hb
    exact absurd heq (by simp)
  | cons c cs ih =>
    intro h n v hb
    cases hm : matchBboxAt (c :: cs) with
    | some w => rw [searchBbox_cons_some hm] at h; exact absurd h (by simp)
    | none =>
      rw [searchBbox_cons_none hm] at h
      cases n with
      | zero =>
        rw [List.drop_zero] at hb
        exact absurd (matchBboxAt_of_BboxTokenMatch hb) (by simp [hm])
      | succ m =>
        rw [List.drop_succ_cons] at hb
        exact ih h m v hb

/-! ## Lemmas: the resolution step -/

theorem resolveCore_page_step {imW imH : Int} {imDpi : Option (Int × Int)}
    {divs : List Element} {coords : Nat × Nat × Nat × Nat}
    (hF : findPage divs = .ok (some coords)) :
    resolveCore imW imH imDpi (some divs) =
      match pageStep coords (imageWH imW imH imDpi) with
      | .error e => .error e
      | .ok r => .ok (resolveAfterPage imW imH r.2 [] (some r.1)) := by
  rw [resolveCore, hF]

theorem resolveCore_page {imW imH : Int} {imDpi : Option (Int × Int)}
    {divs : List Element} {coords : Nat × Nat × Nat × Nat}
    {r : (PyNum × PyNum) × (PyNum × PyNum)}
    (hF : findPage divs = .ok (some coords))
    (hP : pageStep coords (imageWH imW imH imDpi) = .ok r) :
    resolveCore imW imH imDpi (some divs) =
      .ok (resolveAfterPage imW imH r.2 [] (some r.1)) := by
  rw [resolveCore_page_step hF, hP]

/-- In the image-DPI branch the `ocr_page` step keeps `(width, height)`
unchanged whenever it does not raise. -/
theorem pageStep_some_fst {coords : Nat × Nat × Nat × Nat} {w h : PyNum}
    {r : (PyNum × PyNum) × (PyNum × PyNum)}
    (hP : pageStep coords (some (w, h)) = .ok r) : r.1 = (w, h) := by
  rw [pageStep] at hP
  split at hP
  · exact absurd hP (by simp)
  · split at hP
    · exact absurd hP (by simp)
    · simp only [Except.ok.injEq] at hP
      rw [← hP]

theorem resolveCore_nopage {imW imH : Int} {imDpi : Option (Int × Int)}
    {divs : List Element} (hF : findPage divs = .ok none) :
    resolveCore imW imH imDpi (some divs) =
      .ok (resolveAfterPage imW imH (.int 300, .int 300) []
        (imageWH imW imH imDpi)) := by
  rw [resolveCore, hF]

theorem resolveCore_err {imW imH : Int} {imDpi : Option (Int × Int)}
    {divs : List Element} {e : String} (hF : findPage divs = .error e) :
    resolveCore imW imH imDpi (some divs) = .error e := by
  rw [resolveCore, hF]

theorem findPage_first (d : Element) (l2 : List Element)
    (hd : dictLookup "class" d.attrib = some "ocr_page") :
    ∀ l1 : List Element,
      (∀ e ∈ l1, ∃ c, dictLookup "class" e.attrib = some c ∧ c ≠ "ocr_page") →
      findPage (l1 ++ d :: l2) = .ok (some (element_coordinates d.attrib)) := by
  intro l1
  induction l1 with
  | nil =>
    intro _
    rw [List.nil_append, findPage, hd]
    simp
  | cons e es ih =>
    intro hpre
    obtain ⟨c, hc, hne⟩ := hpre e (List.mem_cons_self e es)
    rw [List.cons_append, findPage, hc]
    simp only [hne, if_false]
    exact ih (fun x hx => hpre x (List.mem_cons_of_mem e hx))

theorem findPage_keyError (d : Element) (l2 : List Element)
    (hd : dictLookup "class" d.attrib = none) :
    ∀ l1 : List Element,
      (∀ e ∈ l1, ∃ c, dictLookup "class" e.attrib = some c ∧ c ≠ "ocr_page") →
      findPage (l1 ++ d :: l2) = .error "KeyError: class" := by
  intro l1
  induction l1 with
  | nil =>
    intro _
    rw [List.nil_append, findPage, hd]
  | cons e es ih =>
    intro hpre
    obtain ⟨c, hc, hne⟩ := hpre e (List.mem_cons_self e es)
    rw [List.cons_append, findPage, hc]
    simp only [hne, if_false]
    exact ih (fun x hx => hpre x (List.mem_cons_of_mem e hx))

/-! ## Lemmas: the rendering step -/

theorem renderLine_eq_ok {g : PageGeometry} {l : Element} {t : String}
    (ht : l.text = some t) (hdx : g.dpiX.toRat ≠ 0) (hdy : g.dpiY.toRat ≠ 0)
    (hw : stringWidthCourier 8 (pyRstrip t.data) ≠ 0) :
    renderLine g l = Except.ok
      ⟨"Courier", 8, 3,
        ((element_coordinates l.attrib).1 : ℚ) / g.dpiX.toRat * inch,
        g.height.toRat * inch -
          ((element_coordinates l.attrib).2.2.2 : ℚ) / g.dpiY.toRat * inch,
        (((element_coordinates l.attrib).2.2.1 : ℚ) / g.dpiX.toRat * inch -
          ((element_coordinates l.attrib).1 : ℚ) / g.dpiX.toRat * inch) /
          stringWidthCourier 8 (pyRstrip t.data) * 100,
        pyRstrip t.data⟩ := by
  rw [renderLine, if_neg (by push_neg; exact ⟨hdx, hdy⟩), ht]
  simp only [hw, if_false]

theorem renderLine_ok {g : PageGeometry} {l : Element} {op : TextOp}
    (h : renderLine g l = Except.ok op) :
    g.dpiX.toRat ≠ 0 ∧ g.dpiY.toRat ≠ 0 ∧
    ∃ t, l.text = some t ∧ stringWidthCourier 8 (pyRstrip t.data) ≠ 0 ∧
      op = ⟨"Courier", 8, 3,
        ((element_coordinates l.attrib).1 : ℚ) / g.dpiX.toRat * inch,
        g.height.toRat * inch -
          ((element_coordinates l.attrib).2.2.2 : ℚ) / g.dpiY.toRat * inch,
        (((element_coordinates l.attrib).2.2.1 : ℚ) / g.dpiX.toRat * inch -
          ((element_coordinates l.attrib).1 : ℚ) / g.dpiX.toRat * inch) /
          stringWidthCourier 8 (pyRstrip t.data) * 100,
        pyRstrip t.data⟩ := by
  rw [renderLine] at h
  split at h
  case isTrue => exact absurd h (by simp)
  case isFalse hdpi =>
    push_neg at hdpi
    split at h
    case h_1 => exact absurd h (by simp)
    case h_2 t ht =>
      dsimp only at h
      split at h
      case isTrue => exact absurd h (by simp)
      case isFalse hw =>
        simp only [Except.ok.injEq] at h
        exact ⟨hdpi.1, hdpi.2, t, ht, hw, h.symm⟩

theorem renderLines_keyError (g : PageGeometry) (s : Element) (l2 : List Element)
    (hs : dictLookup "class" s.attrib = none) :
    ∀ l1 : List Element,
      (∀ e ∈ l1, ∃ c, dictLookup "class" e.attrib = some c ∧
        (c = "ocr_line" → ∃ op, renderLine g e = Except.ok op)) →
      renderLines g (l1 ++ s :: l2) = .error "KeyError: class" := by
  intro l1
  induction l1 with
  | nil =>
    intro _
    rw [List.nil_append, renderLines, hs]
  | cons e es ih =>
    intro hpre
    obtain ⟨c, hc, hop⟩ := hpre e (List.mem_cons_self e es)
    have htail := ih (fun x hx => hpre x (List.mem_cons_of_mem e hx))
    rw [List.cons_append, renderLines, hc]
    by_cases hcl : c = "ocr_line"
    · obtain ⟨op, hopv⟩ := hop hcl
      simp only [hcl, if_true, hopv, htail]
    · simp only [hcl, if_false]
      exact htail

theorem element_coordinates_title {attrib : List (String × String)} {t : String}
    (ht : dictLookup "title" attrib = some t) :
    element_coordinates attrib =
      match searchBbox t.data with
      | none => (0, 0, 0, 0)
      | some v => v := by
  rw [element_coordinates, ht]

theorem element_coordinates_no_title {attrib : List (String × String)}
    (ht : dictLookup "title" attrib = none) :
    element_coordinates attrib = (0, 0, 0, 0) := by
  rw [element_coordinates, ht]

/-! ## Concrete documents used by the claim theorems -/

/-- A letter-size, 300-DPI `ocr_page` div (tesseract-style 2550×3300 px). -/
def pageDivLetter : Element :=
  .mk "div" [("class", "ocr_page"), ("title", "bbox 0 0 2550 3300")] none none []

def docLetter : Hocr :=
  ⟨"", .mk "html" [] none none [.mk "body" [] none none [pageDivLetter]]⟩

def bodyChildless : Element := .mk "body" [] (some "hello") none []

def docChildlessBody : Hocr := ⟨"", .mk "html" [] none none [bodyChildless]⟩

def docBodyWithChild : Hocr :=
  ⟨"", .mk "html" [] none none
    [.mk "body" [] (some "a") none [.mk "p" [] (some "b") (some "c") []]]⟩

/-! ## The claims -/

/-- C1 (code-bug evidence): for an image with no DPI metadata and an hOCR
whose first `ocr_page` has bounding box (0,0,2550,3300), the resolution
step of `to_pdf` produces page width 8 inches (not the claimed 8.5),
height 11 inches, and `(dpiX, dpiY) = (318, 300)` (not `(300, 300)`):
`width = ocrwidth/300` and `dpiX = ocrwidth/width` are Python 2 integer
divisions, so `2550/300 = 8` and `2550/8 = 318`, contradicting the code's
own "assume OCR was done at 300 dpi" intent. -/
theorem C1_dpi300_truncated_by_int_division :
    resolve 2550 3300 none (some docLetter) =
      Except.ok ⟨.int 8, .int 11, .int 318, .int 300, []⟩ := rfl

/-- C3 (code-bug evidence): `__str__` tests the found `body` element with
`if body:`, which for an `ElementTree` element is "has children", so a
body that holds only direct text yields `""` even though the recursive
concatenation (`_get_element_text`) of that body is `"hello"`.  With at
least one child the recursive rule (text, children, tail) is honoured,
and a missing document or missing body yields `""` as claimed. -/
theorem C3_childless_body_text_dropped :
    hocrStr (some docChildlessBody) = "" ∧
    get_element_text bodyChildless = "hello" ∧
    hocrStr (some docBodyWithChild) = "abc" ∧
    hocrStr none = "" := ⟨rfl, rfl, rfl, rfl⟩

/-- C5: with no hOCR document and no image DPI metadata, the resolution
step of `to_pdf` falls back to 96 DPI for the page size and leaves
`ocr_dpi` at its default `(300, 300)`; both warnings are printed.  In
particular a 960×1080 image yields a 10.0 × 11.25 inch page. -/
theorem C5_96dpi_fallback :
    (∀ imW imH : Int, resolve imW imH none none =
      Except.ok ⟨.float ((imW : ℚ) / 96), .float ((imH : ℚ) / 96),
        .int 300, .int 300, [noHocrWarning, noDpiWarning]⟩) ∧
    resolve 960 1080 none none =
      Except.ok ⟨.float 10, .float (45/4), .int 300, .int 300,
        [noHocrWarning, noDpiWarning]⟩ := by
  refine ⟨fun imW imH => rfl, ?_⟩
  rw [show resolve 960 1080 none none =
    Except.ok ⟨.float (((960 : Int) : ℚ) / 96), .float (((1080 : Int) : ℚ) / 96),
      .int 300, .int 300, [noHocrWarning, noDpiWarning]⟩ from rfl]
  norm_num [PageGeometry.mk.injEq, PyNum.float.injEq]

/-- C2: `element_coordinates` and the `bbox` regex.  If the `title`
attribute value contains (at earliest start position `n`, the position
`search` commits to) a `bbox` token followed by four whitespace-separated
decimal integers with values `v`, the result is exactly `v`; if no
position matches, or there is no `title` key at all, the result is the
zero box `(0,0,0,0)` — and `element_coordinates` is total, so no error is
raised on malformed input. -/
theorem C2_element_coordinates_spec (attrib : List (String × String)) (t : String) :
    (dictLookup "title" attrib = some t →
      (∀ n v, BboxTokenMatch (t.data.drop n) v →
        (∀ m, m < n → ∀ w, ¬ BboxTokenMatch (t.data.drop m) w) →
        element_coordinates attrib = v) ∧
      ((∀ n v, ¬ BboxTokenMatch (t.data.drop n) v) →
        element_coordinates attrib = (0, 0, 0, 0))) ∧
    (dictLookup "title" attrib = none →
      element_coordinates attrib = (0, 0, 0, 0)) := by
  constructor
  · intro ht
    constructor
    · intro n v hv hbefore
      have hs : searchBbox t.data = some v := by
        apply searchBbox_of_matchBboxAt n t.data (matchBboxAt_of_BboxTokenMatch hv)
        intro m hm
        cases hmm : matchBboxAt (t.data.drop m) with
        | none => rfl
        | some w =>
          exact absurd (BboxTokenMatch_of_matchBboxAt hmm) (hbefore m hm w)
      rw [element_coordinates_title ht, hs]
    · intro hnone
      have hs : searchBbox t.data = none := by
        apply searchBbox_eq_none
        intro n
        cases hmm : matchBboxAt (t.data.drop n) with
        | none => rfl
        | some w =>
          exact absurd (BboxTokenMatch_of_matchBboxAt hmm) (hnone n w)
      rw [element_coordinates_title ht, hs]
  · exact element_coordinates_no_title

/-- Witness for C2 at concrete inputs: a title that is exactly a bbox
string, a title with no match, and an attribute list with no title. -/
theorem C2_element_coordinates_spec_witness :
    element_coordinates [("title", "bbox 12 34 56 78")] = (12, 34, 56, 78) ∧
    element_coordinates [("title", "no box here")] = (0, 0, 0, 0) ∧
    element_coordinates [("alt", "x")] = (0, 0, 0, 0) := by
  refine ⟨?_, ?_, ?_⟩
  · exact ((C2_element_coordinates_spec [("title", "bbox 12 34 56 78")]
        "bbox 12 34 56 78").1 rfl).1 0 (12, 34, 56, 78)
      ⟨[' '], ['1', '2'], [' '], ['3', '4'], [' '], ['5', '6'], [' '], ['7', '8'],
        [], by decide, ⟨by decide, by decide⟩, ⟨by decide, by decide⟩,
        ⟨by decide, by decide⟩, ⟨by decide, by decide⟩, ⟨by decide, by decide⟩,
        ⟨by decide, by decide⟩, ⟨by decide, by decide⟩, ⟨by decide, by decide⟩,
        by intro c hc; simp at hc, by decide⟩
      (fun m hm => absurd hm (Nat.not_lt_zero m))
  · exact ((C2_element_coordinates_spec [("title", "no box here")]
        "no box here").1 rfl).2
      (no_match_of_searchBbox_none "no box here".data (by decide))
  · exact (C2_element_coordinates_spec [("alt", "x")] "").2 rfl

/-- C4: when the image carries explicit DPI metadata `(dx, dy)`, whatever
page geometry the resolution step of `to_pdf` returns has page size
`(imW/dx, imH/dy)` inches, regardless of the hOCR document: the
`ocr_page` branch only sets width/height when they are still unresolved,
so an `ocr_page` element never overrides them. -/
theorem C4_image_dpi_never_overridden (imW imH dx dy : Int) (hocr : Option Hocr)
    (g : PageGeometry) (hdx : 0 < dx) (hdy : 0 < dy)
    (h : resolve imW imH (some (dx, dy)) hocr = Except.ok g) :
    g.width = PyNum.float ((imW : ℚ) / (dx : ℚ)) ∧
    g.height = PyNum.float ((imH : ℚ) / (dy : ℚ)) := by
  cases hocr with
  | none =>
    have h' : resolveCore imW imH (some (dx, dy)) none = Except.ok g := h
    rw [resolveCore, imageWH, resolveAfterPage] at h'
    injection h' with h2
    rw [← h2]
    exact ⟨rfl, rfl⟩
  | some hh =>
    have h' : resolveCore imW imH (some (dx, dy))
        (some (findall hh.root (hh.xmlns ++ "div"))) = Except.ok g := h
    cases hF : findPage (findall hh.root (hh.xmlns ++ "div")) with
    | error e =>
      rw [resolveCore_err hF] at h'
      exact absurd h' (by simp)
    | ok oc =>
      cases oc with
      | none =>
        rw [resolveCore_nopage hF, imageWH, resolveAfterPage] at h'
        injection h' with h2
        rw [← h2]
        exact ⟨rfl, rfl⟩
      | some coords =>
        rw [resolveCore_page_step hF, imageWH] at h'
        split at h'
        · exact absurd h' (by simp)
        · rename_i r hP
          have hfst := pageStep_some_fst hP
          rw [hfst, resolveAfterPage] at h'
          injection h' with h2
          rw [← h2]
          exact ⟨rfl, rfl⟩

/-- Witness for C4 at a concrete input: a 2550×3300 image carrying
300×300 DPI metadata (no hOCR attached). -/
theorem C4_image_dpi_never_overridden_witness :
    (0 : Int) < 300 ∧
    resolve 2550 3300 (some (300, 300)) none =
      Except.ok ⟨.float (((2550 : Int) : ℚ) / ((300 : Int) : ℚ)),
        .float (((3300 : Int) : ℚ) / ((300 : Int) : ℚ)),
        .int 300, .int 300, [noHocrWarning]⟩ ∧
    (PageGeometry.width ⟨.float (((2550 : Int) : ℚ) / ((300 : Int) : ℚ)),
        .float (((3300 : Int) : ℚ) / ((300 : Int) : ℚ)),
        .int 300, .int 300, [noHocrWarning]⟩ =
      PyNum.float (((2550 : Int) : ℚ) / ((300 : Int) : ℚ))) :=
  ⟨by decide, rfl,
    (C4_image_dpi_never_overridden 2550 3300 300 300 none _
      (by decide) (by decide) rfl).1⟩

/-- The spec's running example geometry: an 8.5×11 inch page at
`ocr_dpi = (300, 300)`. -/
def gLetter : PageGeometry := ⟨.float (17/2), .float 11, .int 300, .int 300, []⟩

def lineHello : Element :=
  .mk "span" [("class", "ocr_line"), ("title", "bbox 100 100 400 130")]
    (some "Hello") none []

def lineWorld : Element :=
  .mk "span" [("class", "ocr_line"), ("title", "bbox 100 200 500 230")]
    (some "World, Test") none []

/-- `renderLine gLetter lineHello`, evaluated. -/
def opHello : TextOp := ⟨"Courier", 8, 3, 24, 3804/5, 300, "Hello".data⟩

/-- `renderLine gLetter lineWorld`, evaluated. -/
def opWorld : TextOp := ⟨"Courier", 8, 3, 24, 3684/5, 2000/11, "World, Test".data⟩

/-- C6: every rendered line's origin is
`((x0/dpiX)·inch, (pageHeight − y1/dpiY)·inch)` where `(x0,y0,x1,y1)` is
the line's bounding box — the vertical coordinate is flipped against the
page height — and consequently, of two rendered lines, the one with the
smaller lower-edge `y1` has its origin strictly nearer the top of the
page (smaller distance from `pageHeight·inch`). -/
theorem C6_origin_flips_vertical_axis (g : PageGeometry) (l₁ l₂ : Element)
    (op₁ op₂ : TextOp) (h₁ : renderLine g l₁ = Except.ok op₁)
    (h₂ : renderLine g l₂ = Except.ok op₂) (hdy : 0 < g.dpiY.toRat) :
    op₁.originX = ((element_coordinates l₁.attrib).1 : ℚ) / g.dpiX.toRat * inch ∧
    op₁.originY = (g.height.toRat -
      ((element_coordinates l₁.attrib).2.2.2 : ℚ) / g.dpiY.toRat) * inch ∧
    ((element_coordinates l₁.attrib).2.2.2 < (element_coordinates l₂.attrib).2.2.2 →
      g.height.toRat * inch - op₁.originY <
        g.height.toRat * inch - op₂.originY) := by
  obtain ⟨-, -, t₁, -, -, rfl⟩ := renderLine_ok h₁
  obtain ⟨-, -, t₂, -, -, rfl⟩ := renderLine_ok h₂
  refine ⟨rfl, ?_, ?_⟩
  · dsimp only
    ring
  · intro hy
    have hy' : (((element_coordinates l₁.attrib).2.2.2 : ℚ)) <
        ((element_coordinates l₂.attrib).2.2.2 : ℚ) := by exact_mod_cast hy
    have hq : ((element_coordinates l₁.attrib).2.2.2 : ℚ) / g.dpiY.toRat * inch <
        ((element_coordinates l₂.attrib).2.2.2 : ℚ) / g.dpiY.toRat * inch :=
      mul_lt_mul_of_pos_right ((div_lt_div_right hdy).mpr hy') (by norm_num [inch])
    dsimp only
    linarith [hq]

/-- C7: for a line with non-empty right-trimmed text, `renderLine`
succeeds and the horizontal scale it sets satisfies
`naturalWidth · (scale/100) = (x1 − x0)/dpiX · inch`: scaled by
`horizScale` percent, the rendered text exactly fills the bounding box
width in page units. -/
theorem C7_scale_fills_bbox_width (g : PageGeometry) (l : Element) (t : String)
    (ht : l.text = some t) (hne : pyRstrip t.data ≠ [])
    (hdx : g.dpiX.toRat ≠ 0) (hdy : g.dpiY.toRat ≠ 0) :
    ∃ op, renderLine g l = Except.ok op ∧
      stringWidthCourier 8 (pyRstrip t.data) * (op.horizScale / 100) =
        (((element_coordinates l.attrib).2.2.1 : ℚ) -
          ((element_coordinates l.attrib).1 : ℚ)) / g.dpiX.toRat * inch := by
  have hlen : ((pyRstrip t.data).length : ℚ) ≠ 0 :=
    Nat.cast_ne_zero.mpr (fun h0 => hne (List.length_eq_zero.mp h0))
  have hw : stringWidthCourier 8 (pyRstrip t.data) ≠ 0 := by
    rw [stringWidthCourier]
    exact mul_ne_zero (mul_ne_zero hlen (by norm_num)) (by norm_num)
  refine ⟨_, renderLine_eq_ok ht hdx hdy hw, ?_⟩
  dsimp only
  field_simp
  ring

theorem renderLine_gLetter_hello : renderLine gLetter lineHello = Except.ok opHello := by
  have hstrip : pyRstrip "Hello".data = "Hello".data := by decide
  have hsw : stringWidthCourier 8 "Hello".data = 24 := by
    rw [stringWidthCourier, show ("Hello".data.length) = 5 from by decide]
    norm_num
  have hcoords : element_coordinates lineHello.attrib = (100, 100, 400, 130) := by
    decide
  rw [renderLine_eq_ok (show lineHello.text = some "Hello" from rfl)
    (by norm_num [gLetter, PyNum.toRat]) (by norm_num [gLetter, PyNum.toRat])
    (by rw [hstrip, hsw]; norm_num), hcoords, hstrip, hsw]
  norm_num [gLetter, opHello, PyNum.toRat, inch, TextOp.mk.injEq]

theorem renderLine_gLetter_world : renderLine gLetter lineWorld = Except.ok opWorld := by
  have hstrip : pyRstrip "World, Test".data = "World, Test".data := by decide
  have hsw : stringWidthCourier 8 "World, Test".data = 264/5 := by
    rw [stringWidthCourier, show ("World, Test".data.length) = 11 from by decide]
    norm_num
  have hcoords : element_coordinates lineWorld.attrib = (100, 200, 500, 230) := by
    decide
  rw [renderLine_eq_ok (show lineWorld.text = some "World, Test" from rfl)
    (by norm_num [gLetter, PyNum.toRat]) (by norm_num [gLetter, PyNum.toRat])
    (by rw [hstrip, hsw]; norm_num), hcoords, hstrip, hsw]
  norm_num [gLetter, opWorld, PyNum.toRat, inch, TextOp.mk.injEq]

/-- Witness for C6: the spec's two-line example over the 8.5×11 page at
300 DPI.  "Hello" has box (100,100,400,130), "World, Test" has
(100,200,500,230); the first line's origin lies nearer the page top. -/
theorem C6_origin_flips_vertical_axis_witness :
    renderLine gLetter lineHello = Except.ok opHello ∧
    renderLine gLetter lineWorld = Except.ok opWorld ∧
    0 < gLetter.dpiY.toRat ∧
    gLetter.height.toRat * inch - opHello.originY <
      gLetter.height.toRat * inch - opWorld.originY :=
  ⟨renderLine_gLetter_hello, renderLine_gLetter_world,
    by norm_num [gLetter, PyNum.toRat],
    (C6_origin_flips_vertical_axis gLetter lineHello lineWorld opHello opWorld
      renderLine_gLetter_hello renderLine_gLetter_world
      (by norm_num [gLetter, PyNum.toRat])).2.2 (by decide)⟩

/-- Witness for C7: the "Hello" line; its natural Courier width at size 8
is 24 points and the computed scale of 300% makes it fill the 72-point
bounding-box width. -/
theorem C7_scale_fills_bbox_width_witness :
    lineHello.text = some "Hello" ∧ pyRstrip "Hello".data ≠ [] ∧
    (∃ op, renderLine gLetter lineHello = Except.ok op ∧
      stringWidthCourier 8 (pyRstrip "Hello".data) * (op.horizScale / 100) =
        (((element_coordinates lineHello.attrib).2.2.1 : ℚ) -
          ((element_coordinates lineHello.attrib).1 : ℚ)) /
          gLetter.dpiX.toRat * inch) :=
  ⟨rfl, by decide,
    C7_scale_fills_bbox_width gLetter lineHello "Hello" rfl (by decide)
      (by norm_num [gLetter, PyNum.toRat]) (by norm_num [gLetter, PyNum.toRat])⟩

theorem renderLine_zero_width {g : PageGeometry} {l : Element} {t : String}
    (ht : l.text = some t) (hdx : g.dpiX.toRat ≠ 0) (hdy : g.dpiY.toRat ≠ 0)
    (hw : stringWidthCourier 8 (pyRstrip t.data) = 0) :
    renderLine g l = Except.error "ZeroDivisionError" := by
  rw [renderLine, if_neg (by push_neg; exact ⟨hdx, hdy⟩), ht]
  simp [hw]

def lineBlank : Element :=
  .mk "span" [("class", "ocr_line"), ("title", "bbox 1 2 3 4")] (some "   ") none []

/-- C8: a line whose direct text is whitespace-only right-trims to the
empty string, whose natural Courier width is 0, and the horizontal-scale
computation divides by that width unguarded: the ZeroDivisionError branch
is reached. -/
theorem C8_empty_line_divides_by_zero :
    stringWidthCourier 8 (pyRstrip "   ".data) = 0 ∧
    renderLine gLetter lineBlank = Except.error "ZeroDivisionError" := by
  have hsw : stringWidthCourier 8 (pyRstrip "   ".data) = 0 := by
    rw [show pyRstrip "   ".data = [] from by decide, stringWidthCourier]
    norm_num
  exact ⟨hsw, renderLine_zero_width rfl (by norm_num [gLetter, PyNum.toRat])
    (by norm_num [gLetter, PyNum.toRat]) hsw⟩

def pageDivA : Element :=
  .mk "div" [("class", "ocr_page"), ("title", "bbox 0 0 600 300")] none none []

def pageDivB : Element :=
  .mk "div" [("class", "ocr_page"), ("title", "bbox 0 0 900 600")] none none []

def docTwoPages : Hocr :=
  ⟨"", .mk "html" [] none none [.mk "body" [] none none [pageDivA, pageDivB]]⟩

/-- C9 counterexample: with two `ocr_page` divs (600×300 then 900×600)
and no image DPI, the resolution step takes its geometry from the first
page only (600/300 = 2 by 300/300 = 1 inches, dpi (300, 300)) — and the
warning list is empty: contrary to the claim, no warning is logged about
the extra `ocr_page`; the loop just `break`s silently. -/
theorem C9_counterexample_no_warning_logged :
    resolve 100 100 none (some docTwoPages) =
      Except.ok ⟨.int 2, .int 1, .int 300, .int 300, []⟩ := rfl

/-- C9 (amended): when the `div` list holds an `ocr_page` element `d`
preceded only by classed non-`ocr_page` divs, the resolution step's
result does not depend on anything after `d` (subsequent `ocr_page`
elements included), and no warning is ever logged for the ignored
elements: whenever the first page's `ocr_dpi` divisions succeed (its
derived width and height are non-zero; on a zero one Python raises
`ZeroDivisionError` instead, still without any multiple-page warning),
the step returns a geometry whose warning list is empty. -/
theorem C9_first_page_used_rest_ignored_silently (imW imH : Int)
    (imDpi : Option (Int × Int)) (l1 l2 l2' : List Element) (d : Element)
    (hd : dictLookup "class" d.attrib = some "ocr_page")
    (hpre : ∀ e ∈ l1, ∃ c, dictLookup "class" e.attrib = some c ∧ c ≠ "ocr_page") :
    resolveCore imW imH imDpi (some (l1 ++ d :: l2)) =
      resolveCore imW imH imDpi (some (l1 ++ d :: l2')) ∧
    ∀ r, pageStep (element_coordinates d.attrib) (imageWH imW imH imDpi) =
      Except.ok r →
      ∃ g, resolveCore imW imH imDpi (some (l1 ++ d :: l2)) = Except.ok g ∧
        g.warnings = [] := by
  have hF : findPage (l1 ++ d :: l2) = .ok (some (element_coordinates d.attrib)) :=
    findPage_first d l2 hd l1 hpre
  have hF' : findPage (l1 ++ d :: l2') = .ok (some (element_coordinates d.attrib)) :=
    findPage_first d l2' hd l1 hpre
  refine ⟨by rw [resolveCore_page_step hF, resolveCore_page_step hF'], ?_⟩
  intro r hP
  rw [resolveCore_page hF hP]
  rcases hr : r.1 with ⟨w, h⟩
  rw [resolveAfterPage]
  exact ⟨_, rfl, rfl⟩

/-- Witness for C9 (amended): dropping the second `ocr_page` div does not
change the result; the first page's dpi divisions succeed (600/300 = 2,
300/300 = 1, dpi (300, 300)) and the result is a warning-free success. -/
theorem C9_first_page_used_rest_ignored_silently_witness :
    resolveCore 100 100 none (some ([] ++ pageDivA :: [pageDivB])) =
      resolveCore 100 100 none (some ([] ++ pageDivA :: [])) ∧
    pageStep (element_coordinates pageDivA.attrib) (imageWH 100 100 none) =
      Except.ok ((.int 2, .int 1), (.int 300, .int 300)) ∧
    ∃ g, resolveCore 100 100 none (some ([] ++ pageDivA :: [pageDivB])) =
      Except.ok g ∧ g.warnings = [] :=
  ⟨(C9_first_page_used_rest_ignored_silently 100 100 none [] [pageDivB] []
      pageDivA (by decide) (fun e he => absurd he (List.not_mem_nil e))).1,
   rfl,
   (C9_first_page_used_rest_ignored_silently 100 100 none [] [pageDivB] []
      pageDivA (by decide) (fun e he => absurd he (List.not_mem_nil e))).2
     ((.int 2, .int 1), (.int 300, .int 300)) rfl⟩

def divNoClass : Element := .mk "div" [("id", "x")] none none []

def spanNoClass : Element := .mk "span" [("id", "y")] (some "x") none []

def docPageThenClassless : Hocr :=
  ⟨"", .mk "html" [] none none [.mk "body" [] none none [pageDivA, divNoClass]]⟩

/-- C10 counterexample: this document contains a `div` with no `class`
attribute, yet `to_pdf` completes without any error: the `div` loop exits
at the first `ocr_page` (which precedes the classless div in document
order), so the classless div is never examined. -/
theorem C10_counterexample_classless_div_skipped :
    dictLookup "class" divNoClass.attrib = none ∧
    findall docPageThenClassless.root "div" = [pageDivA, divNoClass] ∧
    to_pdf 100 100 none (some docPageThenClassless) =
      Except.ok (⟨.int 2, .int 1, .int 300, .int 300, []⟩, []) :=
  ⟨rfl, rfl, rfl⟩

/-- C10 (amended): the `class` lookup raises only on elements that are
actually scanned.  A classless `div` preceded only by classed
non-`ocr_page` divs makes the resolution step raise `KeyError`; a
classless `span` preceded only by classed spans whose `ocr_line` members
render successfully makes the span loop raise `KeyError` (that loop has
no early exit).  A classless div after the first `ocr_page` is never
reached (see the counterexample). -/
theorem C10_keyError_only_when_scanned (g : PageGeometry) (imW imH : Int)
    (imDpi : Option (Int × Int)) :
    (∀ (l1 : List Element) (d : Element) (l2 : List Element),
      dictLookup "class" d.attrib = none →
      (∀ e ∈ l1, ∃ c, dictLookup "class" e.attrib = some c ∧ c ≠ "ocr_page") →
      resolveCore imW imH imDpi (some (l1 ++ d :: l2)) =
        Except.error "KeyError: class") ∧
    (∀ (l1 : List Element) (s : Element) (l2 : List Element),
      dictLookup "class" s.attrib = none →
      (∀ e ∈ l1, ∃ c, dictLookup "class" e.attrib = some c ∧
        (c = "ocr_line" → ∃ op, renderLine g e = Except.ok op)) →
      renderLines g (l1 ++ s :: l2) = Except.error "KeyError: class") := by
  constructor
  · intro l1 d l2 hd hpre
    exact resolveCore_err (findPage_keyError d l2 hd l1 hpre)
  · intro l1 s l2 hs hpre
    exact renderLines_keyError g s l2 hs l1 hpre

/-- Witness for C10 (amended): a classless div reached by the div loop,
and a classless span reached by the span loop. -/
theorem C10_keyError_only_when_scanned_witness :
    resolveCore 100 100 none (some ([] ++ divNoClass :: [])) =
      Except.error "KeyError: class" ∧
    renderLines gLetter ([] ++ spanNoClass :: []) =
      Except.error "KeyError: class" :=
  ⟨(C10_keyError_only_when_scanned gLetter 100 100 none).1 [] divNoClass []
      (by decide) (fun e he => absurd he (List.not_mem_nil e)),
    (C10_keyError_only_when_scanned gLetter 100 100 none).2 [] spanNoClass []
      (by decide) (fun e he => absurd he (List.not_mem_nil e))⟩

/-- The zero-divisor path of the `ocr_page` branch is not collapsed: a
first `ocr_page` narrower than 300 px with no image DPI derives
`width = ocrwidth/300 = 0` (integer division) and the `ocr_dpi` division
then raises `ZeroDivisionError`, which the resolution step propagates. -/
theorem resolve_narrow_page_zero_division :
    resolve 100 100 none (some ⟨"", Element.mk "html" [] none none
      [Element.mk "body" [] none none
        [Element.mk "div" [("class", "ocr_page"), ("title", "bbox 0 0 100 100")]
          none none []]]⟩) = Except.error "ZeroDivisionError" := rfl

/-- So is the titleless-`ocr_page` case: coordinates `(0,0,0,0)` give
`width = 0/300 = 0` and the `0/0` division raises. -/
theorem resolve_titleless_page_zero_division :
    resolve 100 100 none (some ⟨"", Element.mk "html" [] none none
      [Element.mk "body" [] none none
        [Element.mk "div" [("class", "ocr_page")] none none []]]⟩) =
      Except.error "ZeroDivisionError" := rfl
